import Mathlib

/-!
Verification development for the guMCP session-multiplexing server.

Part A embeds `src/servers/remote.py`: the Starlette SSE router with its two
module-level dictionaries `user_session_transports` and `user_server_instances`
and the `handle_sse` / `handle_message` handlers.  Because the process uses
single-threaded cooperative (asyncio) scheduling, the synchronous code of
`handle_sse` between its entry and the first `await` (lines 87-121: transport
creation and store, instance get-or-create) runs without interleaving, and the
synchronous `finally` block (lines 135-141) likewise.  The router is therefore
modelled as a transition system whose atomic steps are exactly those two
synchronous blocks plus connection arrival; the long `await server_instance.run`
suspension separates them.

Part B embeds `src/servers/discord/main.py`: the Discord adapter.  The Discord
network API (`discord.py` client calls) is the external-collaborator boundary;
its observable outcomes (channel/message/user/guild lookups succeeding or
raising `NotFound`/`Forbidden`/`HTTPException`) are supplied by a `World`
oracle, while all control flow, argument validation, URI parsing, clamping and
message texts are translated from the source.
-/

/-! ## Part A: the session router (`src/servers/remote.py`) -/

/-- Association-list view of a Python dict from session keys to values
(the dicts `user_session_transports` and `user_server_instances`).
First-match lookup; `eraseA` removes the key (Python `del`). -/
def lookupA : List (String × Nat) → String → Option Nat
  | [], _ => none
  | (k, v) :: rest, q => if k = q then some v else lookupA rest q

/-- Remove a key from the dict (`del d[k]`). -/
def eraseA : List (String × Nat) → String → List (String × Nat)
  | [], _ => []
  | p :: rest, k => if p.1 = k then eraseA rest k else p :: eraseA rest k

/-- Dict assignment `d[k] = v`. -/
def setA (m : List (String × Nat)) (k : String) (v : Nat) : List (String × Nat) :=
  (k, v) :: eraseA m k

/-- Occurrence count of a key in a log of factory invocations. -/
def countS (k : String) : List String → Nat
  | [] => 0
  | x :: xs => (if x = k then 1 else 0) + countS k xs

/-- The router's module-level mutable state (remote.py lines 20-24).
Transport handles and server instances are identified by allocation order
(`nextTransport` / `nextInstance` are the fresh-identity counters);
`factoryLog` records every invocation of `server_factory` (line 115), one
entry (the session key) per call. -/
structure RouterState where
  user_session_transports : List (String × Nat)
  user_server_instances : List (String × Nat)
  nextTransport : Nat
  nextInstance : Nat
  factoryLog : List String
deriving DecidableEq, Repr

/-- Per-connection lifecycle phase of one `handle_sse` invocation:
`connecting` before the synchronous bind block has run, `streaming` while
suspended in `await server_instance.run` (carrying the transport and the
instance this connection received), `closed` after the `finally` cleanup. -/
inductive Phase where
  | connecting
  | streaming (transport : Nat) (inst : Nat)
  | closed (inst : Nat)
deriving DecidableEq, Repr

/-- One in-flight or finished `handle_sse` invocation: its session key
(`f"{server_name}:{session_key_encoded}"`, line 89) and phase. -/
structure Conn where
  key : String
  phase : Phase
deriving DecidableEq, Repr

/-- Whole-system state: router dictionaries plus all connection tasks. -/
structure Sys where
  router : RouterState
  conns : List Conn
deriving DecidableEq, Repr

/-- The synchronous bind block of `handle_sse` (remote.py lines 104-121),
atomic under asyncio: create a fresh SSE transport and store it under the
key (lines 105-110, an unconditional dict overwrite), then get-or-create the
server instance (lines 112-118: call `server_factory` and store the result
only when the key is absent).  Returns the new router state, the transport
id, and the instance id this connection received.  The `user_id` / `api_key`
derivation (lines 91-98) only parameterizes the factory call and is not
observable in this model. -/
def handle_sse_bind (r : RouterState) (k : String) : RouterState × Nat × Nat :=
  let t := r.nextTransport
  let r1 : RouterState :=
    { r with user_session_transports := setA r.user_session_transports k t,
             nextTransport := t + 1 }
  match lookupA r1.user_server_instances k with
  | some inst => (r1, t, inst)
  | none =>
      let inst := r1.nextInstance
      ({ r1 with user_server_instances := setA r1.user_server_instances k inst,
                 nextInstance := inst + 1,
                 factoryLog := r1.factoryLog ++ [k] }, t, inst)

/-- The `finally` cleanup block of `handle_sse` (remote.py lines 135-141):
`if session_key in user_session_transports: del user_session_transports[session_key]`.
Unconditional when present; `user_server_instances` is never touched. -/
def handle_sse_cleanup (r : RouterState) (k : String) : RouterState :=
  match lookupA r.user_session_transports k with
  | some _ => { r with user_session_transports := eraseA r.user_session_transports k }
  | none => r

/-- Response of the message-submission endpoint. -/
inductive MessageResponse where
  | notFound404 (body : String)
  | forward (transport : Nat)
deriving DecidableEq, Repr

/-- `handle_message` (remote.py lines 155-166): requests for a key absent
from `user_session_transports` get a 404 response; otherwise the POST is
forwarded to the stored transport. -/
def handle_message (r : RouterState) (session_key : String) : MessageResponse :=
  match lookupA r.user_session_transports session_key with
  | none => .notFound404 ("Session not found or expired for session " ++ session_key)
  | some t => .forward t

/-- Scheduler actions: a new connection arrives for a key (its task is
created, still before the bind block), a connection's bind block runs, or a
streaming connection's transport closes and its cleanup block runs. -/
inductive Act where
  | connect (k : String)
  | bind (i : Nat)
  | disconnect (i : Nat)
deriving DecidableEq, Repr

/-- One atomic scheduler step.  `none` means the action is not enabled
(no such connection, or it is not in the right phase). -/
def step (s : Sys) : Act → Option Sys
  | .connect k => some { s with conns := s.conns ++ [⟨k, .connecting⟩] }
  | .bind i =>
      match s.conns[i]? with
      | none => none
      | some c =>
          match c.phase with
          | .connecting =>
              let (r, t, inst) := handle_sse_bind s.router c.key
              some { router := r, conns := s.conns.set i ⟨c.key, .streaming t inst⟩ }
          | _ => none
  | .disconnect i =>
      match s.conns[i]? with
      | none => none
      | some c =>
          match c.phase with
          | .streaming _ inst =>
              some { router := handle_sse_cleanup s.router c.key,
                     conns := s.conns.set i ⟨c.key, .closed inst⟩ }
          | _ => none

/-- Run a sequence of scheduler actions. -/
def run (s : Sys) : List Act → Option Sys
  | [] => some s
  | a :: acts =>
      match step s a with
      | none => none
      | some s1 => run s1 acts

/-- Process start: empty dictionaries, no connections. -/
def initSys : Sys := ⟨⟨[], [], 0, 0, []⟩, []⟩

/-- The instance a connection has received, if it is past the bind block. -/
def connInst : Phase → Option Nat
  | .connecting => none
  | .streaming _ i => some i
  | .closed i => some i

/-! ## Part B: the Discord adapter (`src/servers/discord/main.py`) -/

/-- Python strings, viewed as character sequences for the URI computations. -/
abbrev PyStr := List Char

/-- The `discord:///` scheme with which `handle_list_resources` builds
resource URIs (main.py line 158). -/
def discordScheme : PyStr := "discord:///".data

/-- Python `str.replace(pat, rep)` (replace every occurrence, left to
right), fuel-structured so it computes by kernel reduction; the fuel is
always at least the length of the remaining string, and when it runs out
the remainder is returned unchanged (which never happens from
`pyReplace`). -/
def pyReplaceAux (pat rep : PyStr) : Nat → PyStr → PyStr
  | _, [] => []
  | 0, s => s
  | fuel + 1, x :: xs =>
      if pat ≠ [] ∧ pat.isPrefixOf (x :: xs) then
        rep ++ pyReplaceAux pat rep fuel (xs.drop (pat.length - 1))
      else
        x :: pyReplaceAux pat rep fuel xs

/-- Python `s.replace(pat, rep)`. -/
def pyReplace (s pat rep : PyStr) : PyStr := pyReplaceAux pat rep s.length s

/-- Whether `pat` occurs as a contiguous substring of `s` (the condition
under which `pyReplace` rewrites something). -/
def containsSub (pat : PyStr) : PyStr → Bool
  | [] => pat.isEmpty
  | x :: xs => pat.isPrefixOf (x :: xs) || containsSub pat xs

/-- Helper for Python `s.split(sep, 1)` with a one-character separator:
accumulates the piece before the first separator. -/
def splitOnceAux (c : Char) : PyStr → PyStr → List PyStr
  | acc, [] => [acc.reverse]
  | acc, x :: xs => if x = c then [acc.reverse, xs] else splitOnceAux c (x :: acc) xs

/-- Python `s.split(sep, 1)` for a one-character separator: at most one
split, at the first occurrence. -/
def pySplitOnce (s : PyStr) (c : Char) : List PyStr := splitOnceAux c [] s

/-- The URI `handle_list_resources` encodes for a guild/channel pair
(main.py line 158: `f"discord:///{guild.id}/{channel.id}"`), taken here on
the already-rendered identifier strings. -/
def discord_channel_uri (guildId channelId : PyStr) : PyStr :=
  discordScheme ++ guildId ++ '/' :: channelId

/-- The URI-parsing portion of `handle_read_resource` (main.py lines
180-189): check the `discord:///` scheme with `startswith`, strip it with
`replace`, split the rest at the first `/` into guild id and channel id;
a missing scheme or missing second segment raises `ValueError` (modelled
as `Except.error` carrying the message). -/
def parse_discord_uri (uri : PyStr) : Except String (PyStr × PyStr) :=
  if discordScheme.isPrefixOf uri then
    let path := pyReplace uri discordScheme []
    match pySplitOnce path '/' with
    | p0 :: p1 :: _ => .ok (p0, p1)
    | parts => .error ("Invalid URI format: " ++ String.mk uri ++ ", parts: " ++ toString (parts.map String.mk))
  else
    .error ("Unexpected URI format: " ++ String.mk uri)

/-- Faults that propagate to the stream as hard errors.  In the source both
`unknownTool` and `invalidArgument` are raised as Python `ValueError`s
(main.py line 843 and the per-branch argument checks), distinguished here by
constructor as they are distinguished there by message; `timeout` is the
`asyncio.TimeoutError` from the 30-second readiness wait; `valueError` covers
other uncaught `ValueError`s (failed `int(...)` conversions, missing
credentials). -/
inductive Fault where
  | unknownTool (name : String)
  | invalidArgument (msg : String)
  | timeout
  | valueError (msg : String)
deriving DecidableEq, Repr

/-- Per-`create_server` mutable state (main.py lines 120-123): whether
`server.bot_task` has been assigned, and whether the `server.bot_ready`
event has been set. -/
structure AdapterState where
  botTaskStarted : Bool
  botReady : Bool
deriving DecidableEq, Repr

/-- Environment describing how `start_bot_background` (main.py lines
125-138) behaves once spawned: the bot logs in and `on_ready` fires after
`t` time units, or `get_credentials` raises (no stored credentials) so the
ready event is never set, or the login never completes. -/
inductive BgOutcome where
  | readyWithin (t : Nat)
  | credMissing
  | neverReady
deriving DecidableEq, Repr

/-- The readiness gate at the top of every request handler (main.py lines
147-149, 171-173, 422-424):

`if server.bot_task is None: server.bot_task = asyncio.create_task(start_bot_background()); await asyncio.wait_for(server.bot_ready.wait(), timeout=30)`

Only the call that finds `bot_task` still `None` spawns the task and waits;
any other call proceeds immediately whatever the ready event says.  A wait
that expires (background task failed or took more than 30 units) raises
`TimeoutError`, with `bot_task` left assigned. -/
def ensure_bot_started (st : AdapterState) (bg : BgOutcome) : Except Fault Unit × AdapterState :=
  if st.botTaskStarted then
    (.ok (), st)
  else
    match bg with
    | .readyWithin t =>
        if t ≤ 30 then (.ok (), ⟨true, true⟩)
        else (.error .timeout, ⟨true, st.botReady⟩)
    | .credMissing => (.error .timeout, ⟨true, st.botReady⟩)
    | .neverReady => (.error .timeout, ⟨true, st.botReady⟩)

/-- Stored credential blob for one user, as the auth client returns it
(a dict; `get_credentials` looks up the keys `token` and `access_token`). -/
abbrev Creds := List (String × String)

/-- String lookup in a credential dict. -/
def lookupCred : Creds → String → Option String
  | [], _ => none
  | (k, v) :: rest, q => if k = q then some v else lookupCred rest q

/-- `get_credentials` (main.py lines 73-99): fetch the stored blob for the
user; absent blob raises `ValueError`; otherwise return the `token` value,
else the `access_token` value, else raise. -/
def get_credentials (credStore : String → Option Creds) (user_id : String) : Except Fault String :=
  match credStore user_id with
  | none => .error (.valueError ("Credentials not found for user " ++ user_id))
  | some credentials_data =>
      match lookupCred credentials_data "token" with
      | some token => .ok token
      | none =>
          match lookupCred credentials_data "access_token" with
          | some token => .ok token
          | none => .error (.valueError ("Credentials not found for user " ++ user_id))

/-- The module-level global `bot` of main.py (lines 38-39), shared by every
server instance in the process; bot handles are identified by allocation
order. -/
structure DiscordGlobal where
  bot : Option Nat
  nextBotId : Nat
deriving DecidableEq, Repr

/-- `create_discord_bot` (main.py lines 102-113): if the global `bot` is
already set, return it unchanged — whoever the requesting user is and
without touching their credentials; otherwise resolve the requesting
user's credentials (propagating failure) and install a fresh
`commands.Bot` in the global. -/
def create_discord_bot (g : DiscordGlobal) (credStore : String → Option Creds)
    (user_id : String) : Except Fault (Nat × DiscordGlobal) :=
  match g.bot with
  | some b => .ok (b, g)
  | none =>
      match get_credentials credStore user_id with
      | .error e => .error e
      | .ok _token => .ok (g.nextBotId, ⟨some g.nextBotId, g.nextBotId + 1⟩)

/-- A JSON-ish Python value as received in tool arguments. -/
inductive PyVal where
  | str (s : String)
  | int (n : Int)
  | bool (b : Bool)
  | list (items : List PyVal)
  | dict (entries : List (String × PyVal))

/-- Tool arguments: the `arguments` dict, or Python `None`. -/
abbrev Args := List (String × PyVal)

/-- An apostrophe, kept out of string literals. -/
def apos : String := String.singleton (Char.ofNat 39)

/-- Python truthiness of the `arguments` parameter (`not arguments` is true
for `None` and for an empty dict). -/
def pyFalsy : Option Args → Bool
  | none => true
  | some m => m.isEmpty

/-- First-match lookup in an argument dict. -/
def lookupArg : Args → String → Option PyVal
  | [], _ => none
  | (k, v) :: rest, q => if k = q then some v else lookupArg rest q

/-- Python `key in arguments` (false for `None`). -/
def hasArg (arguments : Option Args) (k : String) : Bool :=
  match arguments with
  | none => false
  | some m => (lookupArg m k).isSome

/-- Python `arguments.get(key)` (none for `None`). -/
def getArg (arguments : Option Args) (k : String) : Option PyVal :=
  match arguments with
  | none => none
  | some m => lookupArg m k

/-- Python `arguments[key]`, used only after a presence guard; the default
is never reached on guarded paths. -/
def getArgD (arguments : Option Args) (k : String) (d : PyVal) : PyVal :=
  (getArg arguments k).getD d

/-- Render a Python value the way an f-string does, for error texts. -/
def pyStrOf : PyVal → String
  | .str s => s
  | .int n => toString n
  | .bool b => if b then "True" else "False"
  | .list _ => "[...]"
  | .dict _ => "\x7b...\x7d"

/-- Decimal-digit accumulator for Python `int(str)`. -/
def parseDigitsAux : Nat → List Char → Option Nat
  | acc, [] => some acc
  | acc, c :: cs => if c.isDigit then parseDigitsAux (acc * 10 + (c.toNat - 48)) cs else none

/-- Python `int(s)` on a character sequence: optional surrounding spaces,
optional sign, at least one decimal digit; otherwise `ValueError`. -/
def pyIntOfChars (s : List Char) : Except Fault Int :=
  let t := ((s.dropWhile (· = ' ')).reverse.dropWhile (· = ' ')).reverse
  let bad : Except Fault Int :=
    .error (.valueError ("invalid literal for int() with base 10: " ++ apos ++ String.mk s ++ apos))
  match t with
  | '-' :: d :: ds =>
      match parseDigitsAux 0 (d :: ds) with
      | some n => .ok (-(n : Int))
      | none => bad
  | '+' :: d :: ds =>
      match parseDigitsAux 0 (d :: ds) with
      | some n => .ok (n : Int)
      | none => bad
  | d :: ds =>
      match parseDigitsAux 0 (d :: ds) with
      | some n => .ok (n : Int)
      | none => bad
  | [] => bad

/-- Python `int(x)`: identity on ints, `True`/`False` map to 1/0, strings
are parsed, other shapes raise. -/
def pyInt : PyVal → Except Fault Int
  | .int n => .ok n
  | .bool b => .ok (if b then 1 else 0)
  | .str s => pyIntOfChars s.data
  | .list _ => .error (.valueError "int() argument must be a string or a number")
  | .dict _ => .error (.valueError "int() argument must be a string or a number")

/-- Python `int(arguments.get(key, default))` with an integer default. -/
def pyIntD (v : Option PyVal) (d : Int) : Except Fault Int :=
  match v with
  | none => .ok d
  | some x => pyInt x

/-- Hex-digit value. -/
def hexDigitVal (c : Char) : Option Nat :=
  if c.isDigit then some (c.toNat - 48)
  else if 'a' ≤ c ∧ c ≤ 'f' then some (c.toNat - 87)
  else if 'A' ≤ c ∧ c ≤ 'F' then some (c.toNat - 55)
  else none

/-- Hex accumulator for Python `int(s, 16)`. -/
def parseHexAux : Nat → List Char → Option Nat
  | acc, [] => some acc
  | acc, c :: cs =>
      match hexDigitVal c with
      | some d => parseHexAux (acc * 16 + d) cs
      | none => none

/-- Python `int(s, 16)` on a character sequence. -/
def pyIntHexChars (s : List Char) : Except Fault Int :=
  let bad : Except Fault Int :=
    .error (.valueError ("invalid literal for int() with base 16: " ++ apos ++ String.mk s ++ apos))
  match s with
  | '-' :: d :: ds =>
      match parseHexAux 0 (d :: ds) with
      | some n => .ok (-(n : Int))
      | none => bad
  | d :: ds =>
      match parseHexAux 0 (d :: ds) with
      | some n => .ok (n : Int)
      | none => bad
  | [] => bad

/-- The embed colour expression of `send_embed` (main.py line 619):
`int(arguments.get("color", "#0099ff").lstrip('#'), 16)`; `.lstrip` on a
non-string raises. -/
def pyIntHexVal : PyVal → Except Fault Int
  | .str s => pyIntHexChars (s.data.dropWhile (· = '#'))
  | _ => .error (.valueError "lstrip is only defined on str")

/-- Python truthiness of an argument value (`if member.voice`, `if add`). -/
def pyTruthy : PyVal → Bool
  | .str s => s ≠ ""
  | .int n => n ≠ 0
  | .bool b => b
  | .list l => !l.isEmpty
  | .dict m => !m.isEmpty

/-- One MCP text-content block; `mimeType` is `none` where the source omits
the `mime_type` field. -/
structure TextContent where
  text : String
  mimeType : Option String
deriving DecidableEq, Repr

/-- Text block with `mime_type="text/plain"`. -/
def mkTextPlain (t : String) : TextContent := ⟨t, some "text/plain"⟩

/-- Text block without a mime type. -/
def mkText (t : String) : TextContent := ⟨t, none⟩

/-- Rendering of an adapter fault as Python would stringify the exception
(for the blanket `except Exception as e` of `handle_read_resource`). -/
def faultText : Fault → String
  | .unknownTool n => "Unknown tool: " ++ n
  | .invalidArgument m => m
  | .valueError m => m
  | .timeout => ""

/-- One message as observed through `channel.history` / `fetch_message`. -/
structure MsgData where
  authorName : String
  authorId : Int
  createdAt : String
  content : String
  id : Int
  reactions : List (String × Int)

/-- One channel as observed through `bot.get_channel`/`fetch_channel`. -/
structure ChannelData where
  name : String
  history : List MsgData

/-- One user as observed through `bot.fetch_user`. -/
structure UserData where
  id : Int
  name : String
  displayName : String
  discriminator : String
  avatarUrl : Option String
  isBot : Bool
  isSystem : Bool
  createdAt : String

/-- One guild member; `roleIds` lists `member.roles` with the everyone role
first, `inVoice` is the truthiness of `member.voice`. -/
structure MemberData where
  id : Int
  name : String
  displayName : String
  discriminator : String
  isBot : Bool
  joinedAt : Option String
  roleIds : List Int
  inVoice : Bool

/-- One guild role. -/
structure RoleData where
  name : String

/-- Outcome of a guarded upstream call (`discord.Forbidden` and
`discord.NotFound` are subclasses of `discord.HTTPException`; branches that
only catch `HTTPException` treat all three failures alike). -/
inductive UpOutcome where
  | ok
  | forbidden
  | notFound
  | httpErr (msg : String)

/-- Exception text of a failed upstream call. -/
def upErrText : UpOutcome → String
  | .ok => ""
  | .forbidden => "403 Forbidden"
  | .notFound => "404 Not Found"
  | .httpErr e => e

/-- One guild as observed through `bot.get_guild`: the bot-member
permission flags the branches test, the member and role tables, the
`guild.me.top_role <= role` comparison, and the `guild.large` flag. -/
structure GuildData where
  canBanMembers : Bool
  canKickMembers : Bool
  canMuteMembers : Bool
  canManageRoles : Bool
  members : List (Int × MemberData)
  roles : List (Int × RoleData)
  meTopRoleLE : Int → Bool
  large : Bool

/-- One guild as iterated by `handle_list_resources` (`bot.guilds` with its
text channels). -/
structure GuildRes where
  id : Int
  name : String
  textChannels : List (Int × String)

/-- The upstream Discord state visible to the adapter: lookup oracles for
channels, messages, users and guilds, the id the next successful send gets,
the bot's own user id, and the outcome of each guarded mutating call. -/
structure World where
  guildsList : List GuildRes
  channel : Int → Option ChannelData
  message : Int → Int → Option MsgData
  userById : Int → Option UserData
  guild : Int → Option GuildData
  sentMessageId : Int
  botUserId : Int
  addReactionOutcome : UpOutcome
  banOutcome : UpOutcome
  kickOutcome : UpOutcome
  muteOutcome : UpOutcome
  roleChangeOutcome : UpOutcome

/-- A resource descriptor as produced by `handle_list_resources`. -/
structure ResourceDescr where
  uri : PyStr
  mimeType : String
  name : String

/-- `handle_list_resources` (main.py lines 140-164): run the readiness
gate, then enumerate every text channel of every guild as a
`discord:///{guild.id}/{channel.id}` resource. -/
def handle_list_resources (w : World) (st : AdapterState) (bg : BgOutcome)
    (_cursor : Option String) : Except Fault (List ResourceDescr) × AdapterState :=
  match ensure_bot_started st bg with
  | (.error f, st') => (.error f, st')
  | (.ok _, st') =>
      (.ok ((w.guildsList.map (fun g =>
          g.textChannels.map (fun c =>
            ⟨discord_channel_uri (toString g.id).data (toString c.1).data,
             "text/plain", g.name ++ "/" ++ c.2⟩))).flatten), st')

/-- One history line as `handle_read_resource` formats it
(`f"{message.author.name} ({message.created_at}): {message.content}"`). -/
def render_history_line (m : MsgData) : String :=
  m.authorName ++ " (" ++ m.createdAt ++ "): " ++ m.content

/-- The try-block of `handle_read_resource` (main.py lines 179-223): parse
the URI, look the channel up (`NotFound` gives a textual result), read up
to 25 history messages; the blanket `except Exception` turns every raised
error (bad URI shape, failed `int(...)`) into an
`Error reading resource: ...` text block, so the body is total. -/
def readResourceBody (w : World) (uri : PyStr) : List TextContent :=
  match parse_discord_uri uri with
  | .error msg => [mkTextPlain ("Error reading resource: " ++ msg)]
  | .ok (_guild_id, channel_id) =>
      match pyIntOfChars channel_id with
      | .error f => [mkTextPlain ("Error reading resource: " ++ faultText f)]
      | .ok cid =>
          match w.channel cid with
          | none => [mkTextPlain ("Channel not found: " ++ String.mk channel_id)]
          | some ch =>
              [mkTextPlain (String.intercalate "\n"
                ((ch.history.take 25).map render_history_line))]

/-- `handle_read_resource` (main.py lines 166-223): readiness gate, then
the total try-block body. -/
def handle_read_resource (w : World) (st : AdapterState) (bg : BgOutcome)
    (uri : PyStr) : Except Fault (List TextContent) × AdapterState :=
  match ensure_bot_started st bg with
  | (.error f, st') => (.error f, st')
  | (.ok _, st') => (.ok (readResourceBody w uri), st')

/-- Static metadata of one tool: name, description, schema property names,
and the schema's `required` key list. -/
structure ToolDescr where
  name : String
  description : String
  properties : List String
  required : List String
deriving DecidableEq, Repr

/-- `handle_list_tools` (main.py lines 225-411): the fixed tool table. -/
def handle_list_tools : List ToolDescr :=
  [⟨"send_message", "Send a message to a Discord channel",
    ["channel_id", "content"], ["channel_id", "content"]⟩,
   ⟨"read_messages", "Read recent messages from a Discord channel",
    ["channel_id", "limit"], ["channel_id"]⟩,
   ⟨"add_reaction", "Add a reaction to a message",
    ["channel_id", "message_id", "emoji"], ["channel_id", "message_id", "emoji"]⟩,
   ⟨"edit_message", "Edit an existing message sent by the bot",
    ["channel_id", "message_id", "content"], ["channel_id", "message_id", "content"]⟩,
   ⟨"delete_message", "Delete a message from a channel",
    ["channel_id", "message_id"], ["channel_id", "message_id"]⟩,
   ⟨"send_embed", "Send a rich embed message to a channel",
    ["channel_id", "title", "description", "color", "footer", "image_url", "thumbnail_url", "fields"],
    ["channel_id", "title"]⟩,
   ⟨"get_user_info", "Retrieve information about a user",
    ["user_id"], ["user_id"]⟩,
   ⟨"send_dm", "Send a direct message to a user",
    ["user_id", "content"], ["user_id", "content"]⟩,
   ⟨"ban_member", "Ban a member from a server",
    ["guild_id", "user_id", "reason", "delete_message_days"], ["guild_id", "user_id"]⟩,
   ⟨"kick_member", "Kick a member from a server",
    ["guild_id", "user_id", "reason"], ["guild_id", "user_id"]⟩,
   ⟨"mute_member", "Mute or unmute a member in voice channels",
    ["guild_id", "user_id", "mute"], ["guild_id", "user_id", "mute"]⟩,
   ⟨"assign_role", "Add or remove a role from a member",
    ["guild_id", "user_id", "role_id", "add"], ["guild_id", "user_id", "role_id", "add"]⟩,
   ⟨"list_members", "Get a list of members in a server",
    ["guild_id", "limit"], ["guild_id"]⟩]

/-- The members-listing page size (main.py line 815):
`limit = min(1000, max(1, int(arguments.get("limit", 50))))`. -/
def list_members_limit (arguments : Option Args) : Except Fault Int := do
  let n ← pyIntD (getArg arguments "limit") 50
  pure (min 1000 (max 1 n))

/-- The ban message-deletion day count (main.py line 692):
`delete_message_days = min(7, max(0, int(arguments.get("delete_message_days", 0))))`. -/
def ban_delete_message_days (arguments : Option Args) : Except Fault Int := do
  let n ← pyIntD (getArg arguments "delete_message_days") 0
  pure (min 7 (max 0 n))

/-- One `read_messages` line (main.py lines 477-489): message header plus
id and reaction summary. -/
def render_read_messages_line (m : MsgData) : String :=
  let reactions := m.reactions.map (fun r => r.1 ++ "(" ++ toString r.2 ++ ")")
  let reaction_text := if reactions.isEmpty then "No reactions" else String.intercalate ", " reactions
  m.authorName ++ " (" ++ m.createdAt ++ "): " ++ m.content ++ "\n" ++
    "Message ID: " ++ toString m.id ++ " | Reactions: " ++ reaction_text

/-- The `get_user_info` payload (main.py lines 655-664); the `json.dumps`
rendering is abstracted to one field per line. -/
def render_user_info (u : UserData) : String :=
  String.intercalate "\n"
    ["id: " ++ toString u.id,
     "name: " ++ u.name,
     "display_name: " ++ u.displayName,
     "discriminator: " ++ u.discriminator,
     "avatar_url: " ++ u.avatarUrl.getD "None",
     "bot: " ++ toString u.isBot,
     "system: " ++ toString u.isSystem,
     "created_at: " ++ u.createdAt]

/-- One `list_members` member record (main.py lines 829-839); the
`json.dumps` rendering is abstracted to one member per line;
`member.roles[1:]` drops the everyone role. -/
def render_member_line (m : MemberData) : String :=
  "id: " ++ toString m.id ++ ", name: " ++ m.name ++ ", display_name: " ++ m.displayName ++
    ", discriminator: " ++ m.discriminator ++ ", bot: " ++ toString m.isBot ++
    ", joined_at: " ++ m.joinedAt.getD "None" ++ ", roles: " ++ toString (m.roleIds.drop 1)

/-- The `list_members` text payload. -/
def render_members_payload (ms : List MemberData) : String :=
  String.intercalate "\n" (ms.map render_member_line)

/-- The dispatch body of `handle_call_tool` (main.py lines 426-843): an
if/elif chain on the tool name.  Each branch first validates its required
argument keys and raises `ValueError` (here `Fault.invalidArgument`) when
one is missing; recoverable upstream conditions become textual results;
a name matching no branch raises `ValueError(f"Unknown tool: {name}")`
(here `Fault.unknownTool`).  Upstream effects (sending, editing, banning)
are resolved through the `World` oracles; embed construction details that
produce no observable output (footer, images, fields) are elided. -/
def callToolBody (w : World) (name : String) (arguments : Option Args) :
    Except Fault (List TextContent) :=
  if name = "send_message" then
    if pyFalsy arguments || !hasArg arguments "channel_id" || !hasArg arguments "content" then
      throw (.invalidArgument "Missing required parameters: channel_id and content")
    else do
      let channel_id := getArgD arguments "channel_id" (.str "")
      let _content := getArgD arguments "content" (.str "")
      let cid ← pyInt channel_id
      match w.channel cid with
      | none => pure [mkTextPlain ("Channel not found: " ++ pyStrOf channel_id)]
      | some _ch =>
          pure [mkTextPlain ("Message sent successfully. Message ID: " ++ toString w.sentMessageId)]
  else if name = "read_messages" then
    if pyFalsy arguments || !hasArg arguments "channel_id" then
      throw (.invalidArgument "Missing required parameter: channel_id")
    else do
      let channel_id := getArgD arguments "channel_id" (.str "")
      let limit ← pyIntD (getArg arguments "limit") 10
      let cid ← pyInt channel_id
      match w.channel cid with
      | none => pure [mkTextPlain ("Channel not found: " ++ pyStrOf channel_id)]
      | some ch =>
          let content := String.intercalate "\n\n"
            ((ch.history.take limit.toNat).map render_read_messages_line)
          pure [mkTextPlain ("Recent messages from channel " ++ ch.name ++ ":\n\n" ++ content)]
  else if name = "add_reaction" then
    if pyFalsy arguments || !hasArg arguments "channel_id" || !hasArg arguments "message_id"
        || !hasArg arguments "emoji" then
      throw (.invalidArgument "Missing required parameters: channel_id, message_id, and emoji")
    else do
      let channel_id := getArgD arguments "channel_id" (.str "")
      let message_id := getArgD arguments "message_id" (.str "")
      let emoji := getArgD arguments "emoji" (.str "")
      let cid ← pyInt channel_id
      match w.channel cid with
      | none => pure [mkTextPlain ("Channel not found: " ++ pyStrOf channel_id)]
      | some _ch => do
          let mid ← pyInt message_id
          match w.message cid mid with
          | none => pure [mkTextPlain ("Message not found: " ++ pyStrOf message_id)]
          | some _msg =>
              match w.addReactionOutcome with
              | .ok => pure [mkTextPlain ("Added reaction " ++ pyStrOf emoji ++ " to message " ++ pyStrOf message_id)]
              | o => pure [mkTextPlain ("Failed to add reaction: " ++ upErrText o)]
  else if name = "edit_message" then
    if pyFalsy arguments || !hasArg arguments "channel_id" || !hasArg arguments "message_id"
        || !hasArg arguments "content" then
      throw (.invalidArgument "Missing required parameters: channel_id, message_id, and content")
    else do
      let channel_id := getArgD arguments "channel_id" (.str "")
      let message_id := getArgD arguments "message_id" (.str "")
      let _content := getArgD arguments "content" (.str "")
      let cid ← pyInt channel_id
      match w.channel cid with
      | none => pure [mkText ("Channel not found: " ++ pyStrOf channel_id)]
      | some _ch => do
          let mid ← pyInt message_id
          match w.message cid mid with
          | none => pure [mkText ("Message not found: " ++ pyStrOf message_id)]
          | some msg =>
              if msg.authorId ≠ w.botUserId then
                pure [mkText "Cannot edit messages sent by other users"]
              else
                pure [mkText ("Message " ++ pyStrOf message_id ++ " edited successfully")]
  else if name = "delete_message" then
    if pyFalsy arguments || !hasArg arguments "channel_id" || !hasArg arguments "message_id" then
      throw (.invalidArgument "Missing required parameters: channel_id and message_id")
    else do
      let channel_id := getArgD arguments "channel_id" (.str "")
      let message_id := getArgD arguments "message_id" (.str "")
      let cid ← pyInt channel_id
      match w.channel cid with
      | none => pure [mkText ("Channel not found: " ++ pyStrOf channel_id)]
      | some _ch => do
          let mid ← pyInt message_id
          match w.message cid mid with
          | none => pure [mkText ("Message not found: " ++ pyStrOf message_id)]
          | some _msg =>
              pure [mkText ("Message " ++ pyStrOf message_id ++ " deleted successfully")]
  else if name = "send_embed" then
    if pyFalsy arguments || !hasArg arguments "channel_id" || !hasArg arguments "title" then
      throw (.invalidArgument "Missing required parameters: channel_id and title")
    else do
      let channel_id := getArgD arguments "channel_id" (.str "")
      let cid ← pyInt channel_id
      match w.channel cid with
      | none => pure [mkText ("Channel not found: " ++ pyStrOf channel_id)]
      | some _ch => do
          let _color ←
            if hasArg arguments "color" then
              pyIntHexVal (getArgD arguments "color" (.str "#0099ff"))
            else
              pure (39423 : Int)
          pure [mkText ("Embed sent successfully. Message ID: " ++ toString w.sentMessageId)]
  else if name = "get_user_info" then
    if pyFalsy arguments || !hasArg arguments "user_id" then
      throw (.invalidArgument "Missing required parameter: user_id")
    else do
      let user_id := getArgD arguments "user_id" (.str "")
      let uid ← pyInt user_id
      match w.userById uid with
      | none => pure [mkText ("User not found: " ++ pyStrOf user_id)]
      | some u => pure [mkText (render_user_info u)]
  else if name = "send_dm" then
    if pyFalsy arguments || !hasArg arguments "user_id" || !hasArg arguments "content" then
      throw (.invalidArgument "Missing required parameters: user_id and content")
    else do
      let user_id := getArgD arguments "user_id" (.str "")
      let _content := getArgD arguments "content" (.str "")
      let uid ← pyInt user_id
      match w.userById uid with
      | none => pure [mkText ("User not found: " ++ pyStrOf user_id)]
      | some _u =>
          pure [mkText ("DM sent successfully. Message ID: " ++ toString w.sentMessageId)]
  else if name = "ban_member" then
    if pyFalsy arguments || !hasArg arguments "guild_id" || !hasArg arguments "user_id" then
      throw (.invalidArgument "Missing required parameters: guild_id and user_id")
    else do
      let guild_id := getArgD arguments "guild_id" (.str "")
      let user_id := getArgD arguments "user_id" (.str "")
      let _reason := getArgD arguments "reason" (.str "No reason provided")
      let _delete_message_days ← ban_delete_message_days arguments
      let gid ← pyInt guild_id
      match w.guild gid with
      | none => pure [mkText ("Server not found: " ++ pyStrOf guild_id)]
      | some g =>
          if !g.canBanMembers then
            pure [mkText "Bot does not have permission to ban members"]
          else do
            let _uid ← pyInt user_id
            match w.banOutcome with
            | .forbidden => pure [mkText "Insufficient permissions to ban this user"]
            | .notFound => pure [mkText ("User not found: " ++ pyStrOf user_id)]
            | .httpErr e => pure [mkText ("Failed to ban user: " ++ e)]
            | .ok => pure [mkText ("User " ++ pyStrOf user_id ++ " banned successfully")]
  else if name = "kick_member" then
    if pyFalsy arguments || !hasArg arguments "guild_id" || !hasArg arguments "user_id" then
      throw (.invalidArgument "Missing required parameters: guild_id and user_id")
    else do
      let guild_id := getArgD arguments "guild_id" (.str "")
      let user_id := getArgD arguments "user_id" (.str "")
      let _reason := getArgD arguments "reason" (.str "No reason provided")
      let gid ← pyInt guild_id
      match w.guild gid with
      | none => pure [mkText ("Server not found: " ++ pyStrOf guild_id)]
      | some g =>
          if !g.canKickMembers then
            pure [mkText "Bot does not have permission to kick members"]
          else do
            let uid ← pyInt user_id
            match g.members.lookup uid with
            | none => pure [mkText ("Member not found in server: " ++ pyStrOf user_id)]
            | some _member =>
                match w.kickOutcome with
                | .ok => pure [mkText ("User " ++ pyStrOf user_id ++ " kicked successfully")]
                | .forbidden => pure [mkText "Insufficient permissions to kick this user"]
                | o => pure [mkText ("Failed to kick user: " ++ upErrText o)]
  else if name = "mute_member" then
    if pyFalsy arguments || !hasArg arguments "guild_id" || !hasArg arguments "user_id"
        || !hasArg arguments "mute" then
      throw (.invalidArgument "Missing required parameters: guild_id, user_id, and mute")
    else do
      let guild_id := getArgD arguments "guild_id" (.str "")
      let user_id := getArgD arguments "user_id" (.str "")
      let mute := getArgD arguments "mute" (.bool false)
      let gid ← pyInt guild_id
      match w.guild gid with
      | none => pure [mkText ("Server not found: " ++ pyStrOf guild_id)]
      | some g =>
          if !g.canMuteMembers then
            pure [mkText "Bot does not have permission to mute members"]
          else do
            let uid ← pyInt user_id
            match g.members.lookup uid with
            | none => pure [mkText ("Member not found in server: " ++ pyStrOf user_id)]
            | some member =>
                if !member.inVoice then
                  pure [mkText "Member is not in a voice channel"]
                else
                  match w.muteOutcome with
                  | .ok => pure [mkText ("User " ++ pyStrOf user_id ++ " " ++
                      (if pyTruthy mute then "muted" else "unmuted") ++ " successfully")]
                  | .forbidden => pure [mkText "Insufficient permissions to mute this user"]
                  | o => pure [mkText ("Failed to " ++
                      (if pyTruthy mute then "mute" else "unmute") ++ " user: " ++ upErrText o)]
  else if name = "assign_role" then
    if pyFalsy arguments || !hasArg arguments "guild_id" || !hasArg arguments "user_id"
        || !hasArg arguments "role_id" || !hasArg arguments "add" then
      throw (.invalidArgument "Missing required parameters: guild_id, user_id, role_id, and add")
    else do
      let guild_id := getArgD arguments "guild_id" (.str "")
      let user_id := getArgD arguments "user_id" (.str "")
      let role_id := getArgD arguments "role_id" (.str "")
      let add := getArgD arguments "add" (.bool false)
      let gid ← pyInt guild_id
      match w.guild gid with
      | none => pure [mkText ("Server not found: " ++ pyStrOf guild_id)]
      | some g =>
          if !g.canManageRoles then
            pure [mkText "Bot does not have permission to manage roles"]
          else do
            let uid ← pyInt user_id
            match g.members.lookup uid with
            | none => pure [mkText ("Member not found in server: " ++ pyStrOf user_id)]
            | some _member => do
                let rid ← pyInt role_id
                match g.roles.lookup rid with
                | none => pure [mkText ("Role not found: " ++ pyStrOf role_id)]
                | some role =>
                    if g.meTopRoleLE rid then
                      pure [mkText ("Bot" ++ apos ++ "s highest role is not high enough to assign this role")]
                    else
                      match w.roleChangeOutcome with
                      | .ok => pure [mkText ("Role " ++ role.name ++ " " ++
                          (if pyTruthy add then "added to" else "removed from") ++
                          " user " ++ pyStrOf user_id ++ " successfully")]
                      | .forbidden => pure [mkText "Insufficient permissions to manage roles for this user"]
                      | o => pure [mkText ("Failed to " ++
                          (if pyTruthy add then "add" else "remove") ++ " role: " ++ upErrText o)]
  else if name = "list_members" then
    if pyFalsy arguments || !hasArg arguments "guild_id" then
      throw (.invalidArgument "Missing required parameter: guild_id")
    else do
      let guild_id := getArgD arguments "guild_id" (.str "")
      let limit ← list_members_limit arguments
      let gid ← pyInt guild_id
      match w.guild gid with
      | none => pure [mkText ("Server not found: " ++ pyStrOf guild_id)]
      | some g =>
          -- guild.chunk() only completes the member cache; the member
          -- table here is already complete
          let members := (g.members.take limit.toNat).map Prod.snd
          pure [mkText (render_members_payload members)]
  else
    throw (.unknownTool name)

/-- `handle_call_tool` (main.py lines 413-843): readiness gate (lines
422-424), then the name dispatch. -/
def handle_call_tool (w : World) (st : AdapterState) (bg : BgOutcome)
    (name : String) (arguments : Option Args) :
    Except Fault (List TextContent) × AdapterState :=
  match ensure_bot_started st bg with
  | (.error f, st') => (.error f, st')
  | (.ok _, st') => (callToolBody w name arguments, st')

/-- A small concrete upstream world, used to instantiate theorems with
hypotheses at concrete inputs: one guild (id 5) with one text channel
(id 7) holding one message (id 42), one known user (id 1), all guarded
upstream calls succeeding. -/
def sampleWorld : World where
  guildsList := [⟨5, "guild", [(7, "general")]⟩]
  channel := fun n =>
    if n = 7 then some ⟨"general", [⟨"alice", 1, "2024-01-01", "hi", 42, [("x", 2)]⟩]⟩
    else none
  message := fun cid mid =>
    if cid = 7 ∧ mid = 42 then some ⟨"alice", 1, "2024-01-01", "hi", 42, []⟩ else none
  userById := fun n =>
    if n = 1 then some ⟨1, "alice", "alice", "0001", none, false, false, "2020-01-01"⟩
    else none
  guild := fun n =>
    if n = 5 then
      some ⟨true, true, true, true,
        [(1, ⟨1, "alice", "alice", "0001", false, some "2021-01-01", [9, 10], true⟩)],
        [(10, ⟨"mod"⟩)], (fun _ => false), false⟩
    else none
  sentMessageId := 100
  botUserId := 1
  addReactionOutcome := .ok
  banOutcome := .ok
  kickOutcome := .ok
  muteOutcome := .ok
  roleChangeOutcome := .ok

/-- Router invariant: the factory log counts exactly one invocation for
every key present in `user_server_instances` and none for an absent key,
and every connection past its bind block holds exactly the instance the
store maps its key to. -/
def RouterInv (s : Sys) : Prop :=
  (∀ k, countS k s.router.factoryLog =
    (match lookupA s.router.user_server_instances k with
     | some _ => 1
     | none => 0)) ∧
  (∀ c ∈ s.conns, ∀ i, connInst c.phase = some i →
    lookupA s.router.user_server_instances c.key = some i)

/-! ## Dictionary lemmas -/

theorem lookupA_eraseA_self (m : List (String × Nat)) (k : String) :
    lookupA (eraseA m k) k = none := by
  induction m with
  | nil => rfl
  | cons p rest ih =>
      by_cases hp : p.1 = k
      · simpa [eraseA, hp] using ih
      · simpa [eraseA, hp, lookupA] using ih

theorem lookupA_eraseA_ne (m : List (String × Nat)) (k k' : String) (h : k' ≠ k) :
    lookupA (eraseA m k) k' = lookupA m k' := by
  induction m with
  | nil => rfl
  | cons p rest ih =>
      by_cases hp : p.1 = k
      · have ha : ¬ p.1 = k' := fun hc => h (hc ▸ hp)
        simp [eraseA, hp, lookupA, ha, ih, Ne.symm h]
      · simp [eraseA, hp, lookupA, ih]

theorem lookupA_setA_self (m : List (String × Nat)) (k : String) (v : Nat) :
    lookupA (setA m k v) k = some v := by
  simp [setA, lookupA]

theorem lookupA_setA_ne (m : List (String × Nat)) (k k' : String) (v : Nat) (h : k' ≠ k) :
    lookupA (setA m k v) k' = lookupA m k' := by
  have hk : ¬ k = k' := fun hc => h hc.symm
  simp [setA, lookupA, hk, lookupA_eraseA_ne m k k' h]

theorem countS_append (k : String) (l1 l2 : List String) :
    countS k (l1 ++ l2) = countS k l1 + countS k l2 := by
  induction l1 with
  | nil => simp [countS]
  | cons x xs ih =>
      simp [countS, ih]
      omega

/-! ## Step elimination and preservation lemmas -/

theorem mem_of_conns {l : List Conn} {i : Nat} {c : Conn} (h : l[i]? = some c) : c ∈ l := by
  obtain ⟨hlt, heq⟩ := List.getElem?_eq_some_iff.mp h
  exact heq ▸ List.getElem_mem hlt

theorem handle_sse_bind_existing {r : RouterState} {k : String} {v : Nat}
    (h : lookupA r.user_server_instances k = some v) :
    handle_sse_bind r k =
      ({ r with user_session_transports := setA r.user_session_transports k r.nextTransport,
                nextTransport := r.nextTransport + 1 }, r.nextTransport, v) := by
  simp [handle_sse_bind, h]

theorem handle_sse_bind_new {r : RouterState} {k : String}
    (h : lookupA r.user_server_instances k = none) :
    handle_sse_bind r k =
      ({ user_session_transports := setA r.user_session_transports k r.nextTransport,
         user_server_instances := setA r.user_server_instances k r.nextInstance,
         nextTransport := r.nextTransport + 1,
         nextInstance := r.nextInstance + 1,
         factoryLog := r.factoryLog ++ [k] }, r.nextTransport, r.nextInstance) := by
  simp [handle_sse_bind, h]

theorem handle_sse_cleanup_instances (r : RouterState) (k : String) :
    (handle_sse_cleanup r k).user_server_instances = r.user_server_instances := by
  unfold handle_sse_cleanup
  cases hl : lookupA r.user_session_transports k <;> simp

theorem handle_sse_cleanup_factoryLog (r : RouterState) (k : String) :
    (handle_sse_cleanup r k).factoryLog = r.factoryLog := by
  unfold handle_sse_cleanup
  cases hl : lookupA r.user_session_transports k <;> simp

theorem handle_sse_cleanup_lookup_self (r : RouterState) (k : String) :
    lookupA (handle_sse_cleanup r k).user_session_transports k = none := by
  unfold handle_sse_cleanup
  cases hl : lookupA r.user_session_transports k with
  | none => simpa using hl
  | some t => simp [lookupA_eraseA_self]

theorem step_connect_elim {s s' : Sys} {k : String}
    (h : step s (.connect k) = some s') :
    s' = { s with conns := s.conns ++ [⟨k, .connecting⟩] } := by
  simp [step] at h
  exact h.symm

theorem step_bind_elim {s s' : Sys} {i : Nat}
    (h : step s (.bind i) = some s') :
    ∃ c, s.conns[i]? = some c ∧ c.phase = .connecting ∧
      s' = { router := (handle_sse_bind s.router c.key).1,
             conns := s.conns.set i
               ⟨c.key, .streaming (handle_sse_bind s.router c.key).2.1
                                  (handle_sse_bind s.router c.key).2.2⟩ } := by
  simp only [step] at h
  split at h
  · exact Option.noConfusion h
  · rename_i c hci
    split at h
    · rename_i hph
      exact ⟨c, hci, hph, (Option.some.inj h).symm⟩
    · exact Option.noConfusion h

theorem step_disconnect_elim {s s' : Sys} {i : Nat}
    (h : step s (.disconnect i) = some s') :
    ∃ c t inst, s.conns[i]? = some c ∧ c.phase = .streaming t inst ∧
      s' = { router := handle_sse_cleanup s.router c.key,
             conns := s.conns.set i ⟨c.key, .closed inst⟩ } := by
  simp only [step] at h
  split at h
  · exact Option.noConfusion h
  · rename_i c hci
    split at h
    · rename_i t inst hph
      exact ⟨c, t, inst, hci, hph, (Option.some.inj h).symm⟩
    · exact Option.noConfusion h

theorem step_inv {s s' : Sys} {a : Act} (hs : RouterInv s) (h : step s a = some s') : RouterInv s' := by
  cases a with
  | connect k =>
      rw [step_connect_elim h]
      refine ⟨hs.1, ?_⟩
      intro c hc i hci
      rcases List.mem_append.mp hc with hold | hnew
      · exact hs.2 c hold i hci
      · have hcnew : c = ⟨k, Phase.connecting⟩ := by simpa using hnew
        subst hcnew
        simp [connInst] at hci
  | bind i =>
      obtain ⟨c, hci, hph, rfl⟩ := step_bind_elim h
      cases hl : lookupA s.router.user_server_instances c.key with
      | some v =>
          rw [handle_sse_bind_existing hl]
          refine ⟨hs.1, ?_⟩
          intro c' hc' i' hci'
          rcases List.mem_or_eq_of_mem_set hc' with hold | hnew
          · exact hs.2 c' hold i' hci'
          · subst hnew
            simp [connInst] at hci'
            simpa [← hci'] using hl
      | none =>
          rw [handle_sse_bind_new hl]
          constructor
          · intro k'
            by_cases hk : k' = c.key
            · have h0 : countS c.key s.router.factoryLog = 0 := by
                have h1 := hs.1 c.key
                rw [hl] at h1
                simpa using h1
              subst hk
              simp [countS_append, h0, lookupA_setA_self, countS]
            · rw [countS_append, lookupA_setA_ne _ _ _ _ hk]
              have hck : ¬ c.key = k' := fun hc => hk hc.symm
              simp [countS, hck]
              exact hs.1 k'
          · intro c' hc' i' hci'
            rcases List.mem_or_eq_of_mem_set hc' with hold | hnew
            · have hv := hs.2 c' hold i' hci'
              have hne : c'.key ≠ c.key := by
                intro hc
                rw [hc, hl] at hv
                cases hv
              rw [lookupA_setA_ne _ _ _ _ hne]
              exact hv
            · subst hnew
              simp [connInst] at hci'
              simp [lookupA_setA_self, ← hci']
  | disconnect i =>
      obtain ⟨c, t, inst, hci, hph, rfl⟩ := step_disconnect_elim h
      constructor
      · intro k'
        rw [handle_sse_cleanup_instances, handle_sse_cleanup_factoryLog]
        exact hs.1 k'
      · intro c' hc' i' hci'
        rw [handle_sse_cleanup_instances]
        rcases List.mem_or_eq_of_mem_set hc' with hold | hnew
        · exact hs.2 c' hold i' hci'
        · subst hnew
          simp [connInst] at hci'
          have hv := hs.2 c (mem_of_conns hci) inst (by rw [hph]; rfl)
          simpa [← hci'] using hv

theorem step_lookup_mono {s s' : Sys} {a : Act} (h : step s a = some s') {k : String} {v : Nat}
    (hv : lookupA s.router.user_server_instances k = some v) :
    lookupA s'.router.user_server_instances k = some v := by
  cases a with
  | connect k' =>
      rw [step_connect_elim h]
      exact hv
  | bind i =>
      obtain ⟨c, hci, hph, rfl⟩ := step_bind_elim h
      cases hl : lookupA s.router.user_server_instances c.key with
      | some w => rw [handle_sse_bind_existing hl]; exact hv
      | none =>
          rw [handle_sse_bind_new hl]
          have hne : k ≠ c.key := by
            intro hc
            rw [hc, hl] at hv
            cases hv
          rw [lookupA_setA_ne _ _ _ _ hne]
          exact hv
  | disconnect i =>
      obtain ⟨c, t, inst, hci, hph, rfl⟩ := step_disconnect_elim h
      rw [handle_sse_cleanup_instances]
      exact hv

theorem run_inv : ∀ {acts : List Act} {s s' : Sys}, RouterInv s → run s acts = some s' → RouterInv s' := by
  intro acts
  induction acts with
  | nil =>
      intro s s' hs h
      cases h
      exact hs
  | cons a as ih =>
      intro s s' hs h
      unfold run at h
      cases hst : step s a with
      | none => rw [hst] at h; cases h
      | some s1 =>
          rw [hst] at h
          exact ih (step_inv hs hst) h

theorem run_lookup_mono : ∀ {acts : List Act} {s s' : Sys} {k : String} {v : Nat},
    run s acts = some s' → lookupA s.router.user_server_instances k = some v →
    lookupA s'.router.user_server_instances k = some v := by
  intro acts
  induction acts with
  | nil =>
      intro s s' k v h hv
      cases h
      exact hv
  | cons a as ih =>
      intro s s' k v h hv
      unfold run at h
      cases hst : step s a with
      | none => rw [hst] at h; cases h
      | some s1 =>
          rw [hst] at h
          exact ih h (step_lookup_mono hst hv)

theorem inv_init : RouterInv initSys := by
  constructor
  · intro k; rfl
  · intro c hc
    simp [initSys] at hc

theorem handle_sse_bind_transport (r : RouterState) (k : String) :
    (handle_sse_bind r k).2.1 = r.nextTransport := by
  cases hl : lookupA r.user_server_instances k with
  | some v => rw [handle_sse_bind_existing hl]
  | none => rw [handle_sse_bind_new hl]

theorem handle_sse_bind_transports (r : RouterState) (k : String) :
    (handle_sse_bind r k).1.user_session_transports =
      setA r.user_session_transports k r.nextTransport := by
  cases hl : lookupA r.user_server_instances k with
  | some v => rw [handle_sse_bind_existing hl]
  | none => rw [handle_sse_bind_new hl]

/-! ## Claim C1 -/

/-- C1: for every session key, over any scheduling of any number of
connections, the server factory is invoked exactly once for a key once some
connection for it has bound (and never more than once); all connections
for the same key receive the identical server instance; and once the store
maps a key to an instance, it maps it to that same instance forever. -/
theorem c1_single_flight :
    ∀ (acts : List Act) (s' : Sys), run initSys acts = some s' →
      (∀ k, countS k s'.router.factoryLog ≤ 1) ∧
      (∀ k i, (∃ c ∈ s'.conns, c.key = k ∧ connInst c.phase = some i) →
        countS k s'.router.factoryLog = 1) ∧
      (∀ c1 ∈ s'.conns, ∀ c2 ∈ s'.conns, ∀ i1 i2, c1.key = c2.key →
        connInst c1.phase = some i1 → connInst c2.phase = some i2 → i1 = i2) ∧
      (∀ (acts2 : List Act) (s2 : Sys) (k : String) (v : Nat), run s' acts2 = some s2 →
        lookupA s'.router.user_server_instances k = some v →
        lookupA s2.router.user_server_instances k = some v) := by
  intro acts s' hrun
  have hinv := run_inv inv_init hrun
  refine ⟨?_, ?_, ?_, ?_⟩
  · intro k
    have hc := hinv.1 k
    cases hl : lookupA s'.router.user_server_instances k with
    | some v => rw [hl] at hc; simp at hc; omega
    | none => rw [hl] at hc; simp at hc; omega
  · intro k i h
    obtain ⟨c, hc, hkey, hinst⟩ := h
    have hv := hinv.2 c hc i hinst
    rw [hkey] at hv
    have hcount := hinv.1 k
    rw [hv] at hcount
    exact hcount
  · intro c1 hc1 c2 hc2 i1 i2 hkey h1 h2
    have hv1 := hinv.2 c1 hc1 i1 h1
    have hv2 := hinv.2 c2 hc2 i2 h2
    rw [hkey] at hv1
    rw [hv1] at hv2
    exact Option.some.inj hv2
  · intro acts2 s2 k v hrun2 hv
    exact run_lookup_mono hrun2 hv

/-- Witness: two concurrent connections for the key `discord:u1` starting
from process start; the factory ran exactly once. -/
theorem c1_single_flight_witness :
    ∃ s', run initSys [Act.connect "discord:u1", Act.connect "discord:u1",
        Act.bind 0, Act.bind 1] = some s' ∧
      countS "discord:u1" s'.router.factoryLog = 1 ∧
      countS "discord:u1" s'.router.factoryLog ≤ 1 := by
  refine ⟨_, rfl, ?_, ?_⟩
  · exact (c1_single_flight [Act.connect "discord:u1", Act.connect "discord:u1",
        Act.bind 0, Act.bind 1] _ rfl).2.1 "discord:u1" 0
      ⟨⟨"discord:u1", .streaming 0 0⟩, by decide, rfl, rfl⟩
  · exact (c1_single_flight [Act.connect "discord:u1", Act.connect "discord:u1",
        Act.bind 0, Act.bind 1] _ rfl).1 "discord:u1"

/-! ## Claim C2 -/

/-- C2 counterexample: starting from process start, a second concurrent
connection for the key `discord:u1` binds while the first is still
streaming.  The second connection is not rejected — it too reaches the
streaming phase against the same instance 0 — and the transport map ends
holding the second transport (id 1), the first transport having been
silently overwritten. -/
theorem c2_counterexample :
    run initSys [Act.connect "discord:u1", Act.connect "discord:u1",
        Act.bind 0, Act.bind 1] =
      some ⟨⟨[("discord:u1", 1)], [("discord:u1", 0)], 2, 1, ["discord:u1"]⟩,
            [⟨"discord:u1", .streaming 0 0⟩, ⟨"discord:u1", .streaming 1 0⟩]⟩ := by
  decide

/-- C2 amended: a bind for a key whose instance already has an attached
transport is never rejected: it always succeeds, stores its fresh
transport over whatever the key previously mapped to (last-writer-wins),
and leaves every other connection — in particular the streaming first
one — untouched, so two transports end up driving the same instance. -/
theorem c2_no_rejection :
    ∀ (s : Sys) (i : Nat) (c : Conn), s.conns[i]? = some c → c.phase = .connecting →
      ∃ s', step s (.bind i) = some s' ∧
        s'.conns[i]? = some ⟨c.key, .streaming s.router.nextTransport
          ((handle_sse_bind s.router c.key).2.2)⟩ ∧
        lookupA s'.router.user_session_transports c.key = some s.router.nextTransport ∧
        ∀ j, j ≠ i → s'.conns[j]? = s.conns[j]? := by
  intro s i c hci hph
  have hlt : i < s.conns.length := (List.getElem?_eq_some_iff.mp hci).1
  refine ⟨{ router := (handle_sse_bind s.router c.key).1,
            conns := s.conns.set i
              ⟨c.key, .streaming (handle_sse_bind s.router c.key).2.1
                                 (handle_sse_bind s.router c.key).2.2⟩ }, ?_, ?_, ?_, ?_⟩
  · simp [step, hci, hph]
  · rw [List.getElem?_set_self (by simpa using hlt), handle_sse_bind_transport]
  · rw [handle_sse_bind_transports, lookupA_setA_self]
  · intro j hj
    exact List.getElem?_set_ne (fun hc => hj hc.symm)

/-- Witness for the amended C2 at a concrete state: the first connection
for `k` is streaming with transport 0, the second binds and is accepted. -/
theorem c2_no_rejection_witness :
    ∃ s', step ⟨⟨[("k", 0)], [("k", 0)], 1, 1, ["k"]⟩,
        [⟨"k", Phase.streaming 0 0⟩, ⟨"k", Phase.connecting⟩]⟩ (Act.bind 1) = some s' ∧
      s'.conns[1]? = some ⟨"k", .streaming 1
        ((handle_sse_bind ⟨[("k", 0)], [("k", 0)], 1, 1, ["k"]⟩ "k").2.2)⟩ ∧
      lookupA s'.router.user_session_transports "k" = some 1 ∧
      ∀ j, j ≠ 1 → s'.conns[j]? =
        (⟨⟨[("k", 0)], [("k", 0)], 1, 1, ["k"]⟩,
          [⟨"k", Phase.streaming 0 0⟩, ⟨"k", Phase.connecting⟩]⟩ : Sys).conns[j]? :=
  c2_no_rejection _ 1 ⟨"k", Phase.connecting⟩ rfl rfl

/-! ## Claim C5 -/

/-- C5: when a streaming connection disconnects, its cleanup releases the
transport entry for its key but leaves `user_server_instances` entirely
unchanged — the key still maps to the same instance — and a subsequent
connection for the same key binds to that very instance without any new
factory invocation. -/
theorem c5_disconnect_preserves_instance :
    ∀ (acts : List Act) (s : Sys) (i : Nat) (c : Conn) (t inst : Nat),
      run initSys acts = some s → s.conns[i]? = some c → c.phase = .streaming t inst →
      ∃ s', step s (.disconnect i) = some s' ∧
        s'.router.user_server_instances = s.router.user_server_instances ∧
        lookupA s'.router.user_server_instances c.key = some inst ∧
        lookupA s'.router.user_session_transports c.key = none ∧
        ∃ s3, run s' [Act.connect c.key, Act.bind s'.conns.length] = some s3 ∧
          s3.conns[s'.conns.length]? =
            some ⟨c.key, .streaming s'.router.nextTransport inst⟩ ∧
          s3.router.factoryLog = s'.router.factoryLog := by
  intro acts s i c t inst hrun hci hph
  have hinv := run_inv inv_init hrun
  have hvi : lookupA s.router.user_server_instances c.key = some inst :=
    hinv.2 c (mem_of_conns hci) inst (by rw [hph]; rfl)
  refine ⟨{ router := handle_sse_cleanup s.router c.key,
            conns := s.conns.set i ⟨c.key, .closed inst⟩ }, ?_, ?_, ?_, ?_, ?_⟩
  · simp [step, hci, hph]
  · exact handle_sse_cleanup_instances _ _
  · rw [handle_sse_cleanup_instances]; exact hvi
  · exact handle_sse_cleanup_lookup_self _ _
  · set s' : Sys := { router := handle_sse_cleanup s.router c.key,
                      conns := s.conns.set i ⟨c.key, .closed inst⟩ } with hsdef2
    have hvi' : lookupA s'.router.user_server_instances c.key = some inst := by
      rw [hsdef2]
      show lookupA (handle_sse_cleanup s.router c.key).user_server_instances c.key = some inst
      rw [handle_sse_cleanup_instances]
      exact hvi
    have hidx : (s'.conns ++ [(⟨c.key, .connecting⟩ : Conn)])[s'.conns.length]? =
        some ⟨c.key, .connecting⟩ := by
      rw [List.getElem?_append_right (Nat.le_refl _)]
      simp
    refine ⟨{ router := (handle_sse_bind s'.router c.key).1,
              conns := (s'.conns ++ [(⟨c.key, .connecting⟩ : Conn)]).set s'.conns.length
                (⟨c.key, .streaming (handle_sse_bind s'.router c.key).2.1
                                    (handle_sse_bind s'.router c.key).2.2⟩ : Conn) }, ?_, ?_, ?_⟩
    · show run s' [Act.connect c.key, Act.bind s'.conns.length] = some _
      unfold run
      rw [show step s' (Act.connect c.key) =
        some { s' with conns := s'.conns ++ [(⟨c.key, .connecting⟩ : Conn)] } from rfl]
      unfold run
      rw [show step { s' with conns := s'.conns ++ [(⟨c.key, .connecting⟩ : Conn)] }
            (Act.bind s'.conns.length) =
          some { router := (handle_sse_bind s'.router c.key).1,
                 conns := (s'.conns ++ [(⟨c.key, .connecting⟩ : Conn)]).set s'.conns.length
                   (⟨c.key, .streaming (handle_sse_bind s'.router c.key).2.1
                                       (handle_sse_bind s'.router c.key).2.2⟩ : Conn) } from by
        simp [step, hidx]]
      rfl
    · have hlen : s'.conns.length < (s'.conns ++ [(⟨c.key, .connecting⟩ : Conn)]).length := by
        simp
      show ((s'.conns ++ [(⟨c.key, .connecting⟩ : Conn)]).set s'.conns.length
          ⟨c.key, .streaming (handle_sse_bind s'.router c.key).2.1
                             (handle_sse_bind s'.router c.key).2.2⟩)[s'.conns.length]? =
        some ⟨c.key, .streaming s'.router.nextTransport inst⟩
      rw [List.getElem?_set_self hlen, handle_sse_bind_transport,
        handle_sse_bind_existing hvi']
    · show (handle_sse_bind s'.router c.key).1.factoryLog = s'.router.factoryLog
      rw [handle_sse_bind_existing hvi']

/-- Witness for C5 at a concrete one-connection trace. -/
theorem c5_witness :
    ∃ s', step ⟨⟨[("k", 0)], [("k", 0)], 1, 1, ["k"]⟩,
        [⟨"k", Phase.streaming 0 0⟩]⟩ (Act.disconnect 0) = some s' ∧
      s'.router.user_server_instances = [("k", 0)] ∧
      lookupA s'.router.user_server_instances "k" = some 0 ∧
      lookupA s'.router.user_session_transports "k" = none ∧
      ∃ s3, run s' [Act.connect "k", Act.bind s'.conns.length] = some s3 ∧
        s3.conns[s'.conns.length]? =
          some ⟨"k", .streaming s'.router.nextTransport 0⟩ ∧
        s3.router.factoryLog = s'.router.factoryLog :=
  c5_disconnect_preserves_instance [Act.connect "k", Act.bind 0] _ 0
    ⟨"k", Phase.streaming 0 0⟩ 0 0 rfl rfl rfl

/-! ## Claim C10 -/

/-- C10: the cleanup of a terminating streaming connection removes its key
from the transport map whenever the key is present — even when another
connection for the same key is itself streaming and had stored a newer
transport under the key — so afterwards the key maps to nothing, a POST to
the messages endpoint for it answers 404, while the other connection is
still streaming. -/
theorem c10_cleanup_unconditional :
    ∀ (s : Sys) (i j : Nat) (ci cj : Conn) (ti ii tj ij : Nat),
      s.conns[i]? = some ci → s.conns[j]? = some cj → i ≠ j → ci.key = cj.key →
      ci.phase = .streaming ti ii → cj.phase = .streaming tj ij →
      ∃ s', step s (.disconnect i) = some s' ∧
        lookupA s'.router.user_session_transports ci.key = none ∧
        handle_message s'.router ci.key =
          .notFound404 ("Session not found or expired for session " ++ ci.key) ∧
        s'.conns[j]? = some cj := by
  intro s i j ci cj ti ii tj ij hi hj hij hkey hpi hpj
  refine ⟨{ router := handle_sse_cleanup s.router ci.key,
            conns := s.conns.set i ⟨ci.key, .closed ii⟩ }, ?_, ?_, ?_, ?_⟩
  · simp [step, hi, hpi]
  · exact handle_sse_cleanup_lookup_self _ _
  · show handle_message (handle_sse_cleanup s.router ci.key) ci.key = _
    unfold handle_message
    rw [handle_sse_cleanup_lookup_self]
  · rw [List.getElem?_set_ne hij]
    exact hj

/-- Witness for C10: both connections for `discord:u1` are streaming (the
state produced by the C2 trace); the first disconnects, the newer
transport 1 is deleted, and the messages endpoint answers 404 while the
second connection still streams. -/
theorem c10_witness :
    ∃ s', step ⟨⟨[("discord:u1", 1)], [("discord:u1", 0)], 2, 1, ["discord:u1"]⟩,
        [⟨"discord:u1", Phase.streaming 0 0⟩, ⟨"discord:u1", Phase.streaming 1 0⟩]⟩
        (Act.disconnect 0) = some s' ∧
      lookupA s'.router.user_session_transports "discord:u1" = none ∧
      handle_message s'.router "discord:u1" =
        .notFound404 ("Session not found or expired for session " ++ "discord:u1") ∧
      s'.conns[1]? = some ⟨"discord:u1", Phase.streaming 1 0⟩ :=
  c10_cleanup_unconditional _ 0 1 ⟨"discord:u1", Phase.streaming 0 0⟩
    ⟨"discord:u1", Phase.streaming 1 0⟩ 0 0 1 0 rfl rfl (by decide) rfl rfl rfl

/-! ## Claim C3 -/

/-- C3 counterexample: with tokens stored for both alice and bob, alice's
bot creation installs handle 0 in the process-wide global; bob's
`create_discord_bot` then returns the very same handle 0 — two adapter
instances for different users alias one underlying client — and bob gets
handle 0 even from a credential store that knows no user at all, showing
his credentials are never consulted. -/
theorem c3_counterexample :
    create_discord_bot ⟨none, 0⟩
      (fun u => if u = "alice" then some [("token", "ta")]
                else if u = "bob" then some [("token", "tb")] else none)
      "alice" = .ok (0, ⟨some 0, 1⟩) ∧
    create_discord_bot ⟨some 0, 1⟩
      (fun u => if u = "alice" then some [("token", "ta")]
                else if u = "bob" then some [("token", "tb")] else none)
      "bob" = .ok (0, ⟨some 0, 1⟩) ∧
    create_discord_bot ⟨some 0, 1⟩ (fun _ => none) "bob" = .ok (0, ⟨some 0, 1⟩) := by
  exact ⟨rfl, rfl, rfl⟩

/-- C3 amended: the underlying client handle is one process-wide global,
not a per-instance field: once the global holds a bot, `create_discord_bot`
returns that same handle to any requesting user without touching the
credential store, so adapter instances for different users alias the same
client; only when the global is empty are the requesting user's
credentials resolved and a fresh handle installed (lazy single creation). -/
theorem c3_global_bot_alias :
    (∀ (g : DiscordGlobal) (cs : String → Option Creds) (u : String) (b : Nat),
      g.bot = some b → create_discord_bot g cs u = .ok (b, g)) ∧
    (∀ (g : DiscordGlobal) (cs : String → Option Creds) (u tok : String),
      g.bot = none → get_credentials cs u = .ok tok →
      create_discord_bot g cs u = .ok (g.nextBotId, ⟨some g.nextBotId, g.nextBotId + 1⟩)) := by
  constructor
  · intro g cs u b hb
    unfold create_discord_bot
    rw [hb]
  · intro g cs u tok hb htok
    unfold create_discord_bot
    rw [hb, htok]

/-- Witness for the amended C3: a populated global is returned as-is to a
user with no credentials; an empty global triggers creation from the
requesting user's token. -/
theorem c3_global_bot_alias_witness :
    create_discord_bot ⟨some 7, 8⟩ (fun _ => none) "bob" = .ok (7, ⟨some 7, 8⟩) ∧
    create_discord_bot ⟨none, 0⟩
      (fun u => if u = "alice" then some [("token", "ta")] else none) "alice" =
      .ok (0, ⟨some 0, 1⟩) :=
  ⟨c3_global_bot_alias.1 ⟨some 7, 8⟩ (fun _ => none) "bob" 7 rfl,
   c3_global_bot_alias.2 ⟨none, 0⟩
     (fun u => if u = "alice" then some [("token", "ta")] else none) "alice" "ta" rfl rfl⟩

/-! ## Claim C4 -/

/-- C4 counterexample: user `discord:u` has no stored credentials.  The
bind commits instance 0 to the store anyway (the factory cannot fail); the
first operation's readiness wait then raises a timeout fault with
`bot_task` left set; the instance is still in the store, and after the
first connection closes, a reconnect for the same key — by which time valid
credentials could exist — binds to the same stale instance 0 with no new
factory invocation, and its first operation skips the readiness wait with
the bot still not ready. -/
theorem c4_counterexample :
    (run initSys [Act.connect "discord:u", Act.bind 0]).map
        (fun s => lookupA s.router.user_server_instances "discord:u") = some (some 0) ∧
    ensure_bot_started ⟨false, false⟩ .credMissing = (.error .timeout, ⟨true, false⟩) ∧
    (run initSys [Act.connect "discord:u", Act.bind 0, Act.disconnect 0,
        Act.connect "discord:u", Act.bind 1]).map
        (fun s => (s.router.factoryLog,
          lookupA s.router.user_server_instances "discord:u",
          s.conns.map Conn.phase)) =
      some (["discord:u"], some 0, [.closed 0, .streaming 1 0]) ∧
    ensure_bot_started ⟨true, false⟩ (.readyWithin 1) = (.ok (), ⟨true, false⟩) := by
  exact ⟨rfl, rfl, by decide, rfl⟩

/-- C4 amended: adapter construction (the server factory) cannot fail and
commits the instance to the store unconditionally; a credential failure
instead surfaces on the first operation as a timeout fault after the
30-unit wait, with the task flag left set; the instance then remains in the
store through any further activity, and a later connection for the same key
reuses the stale instance — the factory is not re-invoked — whose
operations skip the readiness wait entirely. -/
theorem c4_stale_instance_retained :
    (∀ (r : RouterState) (k : String), lookupA r.user_server_instances k = none →
      lookupA (handle_sse_bind r k).1.user_server_instances k = some r.nextInstance) ∧
    (∀ b : Bool, ensure_bot_started ⟨false, b⟩ .credMissing = (.error .timeout, ⟨true, b⟩)) ∧
    (∀ (acts : List Act) (s s2 : Sys) (k : String) (v : Nat), run s acts = some s2 →
      lookupA s.router.user_server_instances k = some v →
      lookupA s2.router.user_server_instances k = some v) ∧
    (∀ (r : RouterState) (k : String) (v : Nat), lookupA r.user_server_instances k = some v →
      (handle_sse_bind r k).1.factoryLog = r.factoryLog ∧ (handle_sse_bind r k).2.2 = v) ∧
    (∀ (b : Bool) (bg : BgOutcome), ensure_bot_started ⟨true, b⟩ bg = (.ok (), ⟨true, b⟩)) := by
  refine ⟨?_, ?_, ?_, ?_, ?_⟩
  · intro r k h
    rw [handle_sse_bind_new h]
    exact lookupA_setA_self _ _ _
  · intro b; rfl
  · intro acts s s2 k v hrun hv
    exact run_lookup_mono hrun hv
  · intro r k v h
    constructor <;> rw [handle_sse_bind_existing h]
  · intro b bg; rfl

/-- Witness for the amended C4 at concrete states. -/
theorem c4_stale_instance_retained_witness :
    lookupA (handle_sse_bind ⟨[], [], 0, 0, []⟩ "k").1.user_server_instances "k" = some 0 ∧
    ensure_bot_started ⟨false, false⟩ .credMissing = (.error .timeout, ⟨true, false⟩) ∧
    lookupA (⟨⟨[], [("k", 0)], 1, 1, ["k"]⟩,
      [⟨"k", Phase.connecting⟩]⟩ : Sys).router.user_server_instances "k" = some 0 ∧
    (handle_sse_bind ⟨[], [("k", 0)], 1, 1, ["k"]⟩ "k").1.factoryLog = ["k"] ∧
    (handle_sse_bind ⟨[], [("k", 0)], 1, 1, ["k"]⟩ "k").2.2 = 0 ∧
    ensure_bot_started ⟨true, false⟩ .neverReady = (.ok (), ⟨true, false⟩) :=
  ⟨c4_stale_instance_retained.1 ⟨[], [], 0, 0, []⟩ "k" rfl,
   c4_stale_instance_retained.2.1 false,
   c4_stale_instance_retained.2.2.1 [Act.connect "k"] ⟨⟨[], [("k", 0)], 1, 1, ["k"]⟩, []⟩
     _ "k" 0 rfl rfl,
   (c4_stale_instance_retained.2.2.2.1 ⟨[], [("k", 0)], 1, 1, ["k"]⟩ "k" 0 rfl).1,
   (c4_stale_instance_retained.2.2.2.1 ⟨[], [("k", 0)], 1, 1, ["k"]⟩ "k" 0 rfl).2,
   c4_stale_instance_retained.2.2.2.2 false .neverReady⟩

/-! ## Claim C6 -/

/-- C6 counterexample: after a first operation whose background task fails
(missing credentials) times out, the bot task is left assigned and the
ready event unset; the next operation then proceeds immediately —
`ensure_bot_started` answers ok with the bot still not ready — instead of
blocking until readiness or surfacing a fault. -/
theorem c6_counterexample :
    ensure_bot_started ⟨false, false⟩ .credMissing = (.error .timeout, ⟨true, false⟩) ∧
    ensure_bot_started ⟨true, false⟩ .neverReady = (.ok (), ⟨true, false⟩) :=
  ⟨rfl, rfl⟩

/-- C6 amended: only the operation that finds `bot_task` unset spawns the
background task and waits, and that wait is bounded by the 30-unit
timeout: it succeeds when readiness is signalled within 30 units and
raises a timeout fault otherwise (also when credentials are missing or the
login never completes).  Any operation issued once the task exists skips
the wait and proceeds even when readiness was never signalled. -/
theorem c6_first_op_gate_only :
    (∀ (b : Bool) (t : Nat), t ≤ 30 →
      ensure_bot_started ⟨false, b⟩ (.readyWithin t) = (.ok (), ⟨true, true⟩)) ∧
    (∀ (b : Bool) (t : Nat), 30 < t →
      ensure_bot_started ⟨false, b⟩ (.readyWithin t) = (.error .timeout, ⟨true, b⟩)) ∧
    (∀ b : Bool, ensure_bot_started ⟨false, b⟩ .credMissing = (.error .timeout, ⟨true, b⟩)) ∧
    (∀ b : Bool, ensure_bot_started ⟨false, b⟩ .neverReady = (.error .timeout, ⟨true, b⟩)) ∧
    (∀ (b : Bool) (bg : BgOutcome), ensure_bot_started ⟨true, b⟩ bg = (.ok (), ⟨true, b⟩)) := by
  refine ⟨?_, ?_, ?_, ?_, ?_⟩
  · intro b t ht
    simp [ensure_bot_started, ht]
  · intro b t ht
    simp [ensure_bot_started, Nat.not_le.mpr ht]
  · intro b; rfl
  · intro b; rfl
  · intro b bg; rfl

/-- Witness for the amended C6 at concrete readiness outcomes. -/
theorem c6_first_op_gate_only_witness :
    ensure_bot_started ⟨false, false⟩ (.readyWithin 5) = (.ok (), ⟨true, true⟩) ∧
    ensure_bot_started ⟨false, false⟩ (.readyWithin 31) = (.error .timeout, ⟨true, false⟩) ∧
    ensure_bot_started ⟨true, false⟩ .neverReady = (.ok (), ⟨true, false⟩) :=
  ⟨c6_first_op_gate_only.1 false 5 (by decide),
   c6_first_op_gate_only.2.1 false 31 (by decide),
   c6_first_op_gate_only.2.2.2.2 false .neverReady⟩

/-- Unfolding of `throw` in the `Except Fault` monad. -/
theorem throw_eq_error (e : Fault) :
    (throw e : Except Fault (List TextContent)) = Except.error e := rfl

/-! ## Claim C7 -/

/-- C7: with the adapter ready, a `callTool` whose name is absent from the
`handle_list_tools` name set raises a hard `unknownTool` fault (not a
textual result); a recognized name with any of its schema-required
argument keys missing raises a hard `invalidArgument` fault. -/
theorem c7_tool_dispatch :
    (∀ (w : World) (st : AdapterState) (bg : BgOutcome) (name : String)
        (arguments : Option Args),
      st.botTaskStarted = true → name ∉ handle_list_tools.map ToolDescr.name →
      handle_call_tool w st bg name arguments = (.error (.unknownTool name), st)) ∧
    (∀ tool ∈ handle_list_tools, ∀ (w : World) (st : AdapterState) (bg : BgOutcome)
        (arguments : Option Args) (k : String),
      st.botTaskStarted = true → k ∈ tool.required → hasArg arguments k = false →
      ∃ m, handle_call_tool w st bg tool.name arguments =
        (.error (.invalidArgument m), st)) := by
  constructor
  · intro w st bg name arguments hst hname
    have hgate : ensure_bot_started st bg = (.ok (), st) := by
      simp [ensure_bot_started, hst]
    simp only [handle_list_tools, List.map_cons, List.map_nil, List.mem_cons,
      List.not_mem_nil, or_false, not_or] at hname
    obtain ⟨h1, h2, h3, h4, h5, h6, h7, h8, h9, h10, h11, h12, h13⟩ := hname
    simp [handle_call_tool, hgate, callToolBody, throw_eq_error,
      h1, h2, h3, h4, h5, h6, h7, h8, h9, h10, h11, h12, h13]
  · intro tool htool w st bg arguments k hst hk hmiss
    have hgate : ensure_bot_started st bg = (.ok (), st) := by
      simp [ensure_bot_started, hst]
    fin_cases htool
    · have hor : k = "channel_id" ∨ k = "content" := by simpa using hk
      refine ⟨"Missing required parameters: channel_id and content", ?_⟩
      rcases hor with rfl | rfl <;>
        simp [handle_call_tool, hgate, callToolBody, hmiss, throw_eq_error]
    · have hor : k = "channel_id" := by simpa using hk
      subst hor
      refine ⟨"Missing required parameter: channel_id", ?_⟩
      simp [handle_call_tool, hgate, callToolBody, hmiss, throw_eq_error]
    · have hor : k = "channel_id" ∨ k = "message_id" ∨ k = "emoji" := by simpa using hk
      refine ⟨"Missing required parameters: channel_id, message_id, and emoji", ?_⟩
      rcases hor with rfl | rfl | rfl <;>
        simp [handle_call_tool, hgate, callToolBody, hmiss, throw_eq_error]
    · have hor : k = "channel_id" ∨ k = "message_id" ∨ k = "content" := by simpa using hk
      refine ⟨"Missing required parameters: channel_id, message_id, and content", ?_⟩
      rcases hor with rfl | rfl | rfl <;>
        simp [handle_call_tool, hgate, callToolBody, hmiss, throw_eq_error]
    · have hor : k = "channel_id" ∨ k = "message_id" := by simpa using hk
      refine ⟨"Missing required parameters: channel_id and message_id", ?_⟩
      rcases hor with rfl | rfl <;>
        simp [handle_call_tool, hgate, callToolBody, hmiss, throw_eq_error]
    · have hor : k = "channel_id" ∨ k = "title" := by simpa using hk
      refine ⟨"Missing required parameters: channel_id and title", ?_⟩
      rcases hor with rfl | rfl <;>
        simp [handle_call_tool, hgate, callToolBody, hmiss, throw_eq_error]
    · have hor : k = "user_id" := by simpa using hk
      subst hor
      refine ⟨"Missing required parameter: user_id", ?_⟩
      simp [handle_call_tool, hgate, callToolBody, hmiss, throw_eq_error]
    · have hor : k = "user_id" ∨ k = "content" := by simpa using hk
      refine ⟨"Missing required parameters: user_id and content", ?_⟩
      rcases hor with rfl | rfl <;>
        simp [handle_call_tool, hgate, callToolBody, hmiss, throw_eq_error]
    · have hor : k = "guild_id" ∨ k = "user_id" := by simpa using hk
      refine ⟨"Missing required parameters: guild_id and user_id", ?_⟩
      rcases hor with rfl | rfl <;>
        simp [handle_call_tool, hgate, callToolBody, hmiss, throw_eq_error]
    · have hor : k = "guild_id" ∨ k = "user_id" := by simpa using hk
      refine ⟨"Missing required parameters: guild_id and user_id", ?_⟩
      rcases hor with rfl | rfl <;>
        simp [handle_call_tool, hgate, callToolBody, hmiss, throw_eq_error]
    · have hor : k = "guild_id" ∨ k = "user_id" ∨ k = "mute" := by simpa using hk
      refine ⟨"Missing required parameters: guild_id, user_id, and mute", ?_⟩
      rcases hor with rfl | rfl | rfl <;>
        simp [handle_call_tool, hgate, callToolBody, hmiss, throw_eq_error]
    · have hor : k = "guild_id" ∨ k = "user_id" ∨ k = "role_id" ∨ k = "add" := by
        simpa using hk
      refine ⟨"Missing required parameters: guild_id, user_id, role_id, and add", ?_⟩
      rcases hor with rfl | rfl | rfl | rfl <;>
        simp [handle_call_tool, hgate, callToolBody, hmiss, throw_eq_error]
    · have hor : k = "guild_id" := by simpa using hk
      subst hor
      refine ⟨"Missing required parameter: guild_id", ?_⟩
      simp [handle_call_tool, hgate, callToolBody, hmiss, throw_eq_error]

/-- Witness for C7: the unknown name `frobnicate` faults hard; the
recognized `send_message` without its required `content` key faults
hard. -/
theorem c7_tool_dispatch_witness :
    ("frobnicate" ∉ handle_list_tools.map ToolDescr.name) ∧
    handle_call_tool sampleWorld ⟨true, true⟩ .neverReady "frobnicate" (some []) =
      (.error (.unknownTool "frobnicate"), ⟨true, true⟩) ∧
    (∃ m, handle_call_tool sampleWorld ⟨true, true⟩ .neverReady "send_message"
      (some [("channel_id", .str "7")]) = (.error (.invalidArgument m), ⟨true, true⟩)) :=
  ⟨by decide,
   c7_tool_dispatch.1 sampleWorld ⟨true, true⟩ .neverReady "frobnicate" (some [])
     rfl (by decide),
   c7_tool_dispatch.2
     ⟨"send_message", "Send a message to a Discord channel",
      ["channel_id", "content"], ["channel_id", "content"]⟩ (by decide)
     sampleWorld ⟨true, true⟩ .neverReady (some [("channel_id", .str "7")]) "content"
     rfl (by decide) rfl⟩

/-! ## Claim C8 -/

theorem containsSub_false_replace (pat rep : PyStr) :
    ∀ (fuel : Nat) (s : PyStr), containsSub pat s = false →
      pyReplaceAux pat rep fuel s = s := by
  intro fuel
  induction fuel with
  | zero =>
      intro s h
      cases s <;> rfl
  | succ n ih =>
      intro s h
      cases s with
      | nil => rfl
      | cons x xs =>
          simp only [containsSub, Bool.or_eq_false_iff] at h
          simp [pyReplaceAux, h.1, ih xs h.2]

theorem isPrefixOf_append_true (l t : PyStr) : l.isPrefixOf (l ++ t) = true := by
  rw [List.isPrefixOf_iff_prefix]
  exact List.prefix_append l t

theorem pyReplace_strip_scheme (p0 : Char) (pt rest : PyStr)
    (h : containsSub (p0 :: pt) rest = false) :
    pyReplace ((p0 :: pt) ++ rest) (p0 :: pt) [] = rest := by
  have hpre : (p0 :: pt).isPrefixOf ((p0 :: pt) ++ rest) = true := isPrefixOf_append_true _ _
  show pyReplaceAux (p0 :: pt) [] ((pt ++ rest).length + 1) (p0 :: (pt ++ rest)) = rest
  rw [pyReplaceAux, if_pos ⟨List.cons_ne_nil p0 pt, hpre⟩]
  have hdrop : (pt ++ rest).drop ((p0 :: pt).length - 1) = rest := by
    simp [List.drop_left]
  rw [hdrop, List.nil_append]
  exact containsSub_false_replace _ _ _ _ h

theorem splitOnceAux_no_sep (c : Char) :
    ∀ (g acc : PyStr), (∀ ch ∈ g, ch ≠ c) →
      splitOnceAux c acc g = [acc.reverse ++ g] := by
  intro g
  induction g with
  | nil =>
      intro acc h
      simp [splitOnceAux]
  | cons x xs ih =>
      intro acc h
      have hx : ¬ x = c := h x (by simp)
      rw [splitOnceAux, if_neg hx, ih (x :: acc) (fun ch hch => h ch (by simp [hch]))]
      simp

theorem splitOnceAux_mid (c : Char) :
    ∀ (g acc t : PyStr), (∀ ch ∈ g, ch ≠ c) →
      splitOnceAux c acc (g ++ c :: t) = [acc.reverse ++ g, t] := by
  intro g
  induction g with
  | nil =>
      intro acc t h
      simp [splitOnceAux]
  | cons x xs ih =>
      intro acc t h
      have hx : ¬ x = c := h x (by simp)
      rw [List.cons_append, splitOnceAux, if_neg hx,
        ih (x :: acc) t (fun ch hch => h ch (by simp [hch]))]
      simp

/-- C8: encoding a resource URI from a guild/channel identifier pair and
parsing it back in `handle_read_resource` recovers exactly the two
identifiers (for identifiers free of the separator and of the scheme text,
as all numeric Discord ids are); a URI missing the `discord:///` scheme,
or carrying only one path segment after it, makes `handle_read_resource`
return a textual error-result block — never a raised fault. -/
theorem c8_uri_roundtrip :
    (∀ g c : PyStr, (∀ ch ∈ g, ch ≠ '/') →
      containsSub discordScheme (g ++ '/' :: c) = false →
      parse_discord_uri (discord_channel_uri g c) = .ok (g, c)) ∧
    (∀ (w : World) (st : AdapterState) (bg : BgOutcome) (uri : PyStr),
      st.botTaskStarted = true → discordScheme.isPrefixOf uri = false →
      ∃ m, handle_read_resource w st bg uri =
        (.ok [mkTextPlain ("Error reading resource: " ++ m)], st)) ∧
    (∀ (w : World) (st : AdapterState) (bg : BgOutcome) (p : PyStr),
      st.botTaskStarted = true → (∀ ch ∈ p, ch ≠ '/') →
      containsSub discordScheme p = false →
      ∃ m, handle_read_resource w st bg (discordScheme ++ p) =
        (.ok [mkTextPlain ("Error reading resource: " ++ m)], st)) := by
  have hd : discordScheme = 'd' :: "iscord:///".data := by decide
  refine ⟨?_, ?_, ?_⟩
  · intro g c hg hsub
    have hpath : pyReplace (discordScheme ++ (g ++ '/' :: c)) discordScheme [] =
        g ++ '/' :: c := by
      rw [hd]
      exact pyReplace_strip_scheme 'd' _ _ (by rw [← hd]; exact hsub)
    have hsplit : pySplitOnce (g ++ '/' :: c) '/' = [g, c] := by
      unfold pySplitOnce
      simpa using splitOnceAux_mid '/' g [] c hg
    have hc : discordScheme.isPrefixOf (discordScheme ++ (g ++ '/' :: c)) = true :=
      isPrefixOf_append_true _ _
    unfold discord_channel_uri parse_discord_uri
    simp [hc, hpath, hsplit]
  · intro w st bg uri hst hpre
    have hgate : ensure_bot_started st bg = (.ok (), st) := by
      simp [ensure_bot_started, hst]
    refine ⟨"Unexpected URI format: " ++ String.mk uri, ?_⟩
    simp [handle_read_resource, hgate, readResourceBody, parse_discord_uri, hpre]
  · intro w st bg p hst hp hsub
    have hgate : ensure_bot_started st bg = (.ok (), st) := by
      simp [ensure_bot_started, hst]
    have hpath : pyReplace (discordScheme ++ p) discordScheme [] = p := by
      rw [hd]
      exact pyReplace_strip_scheme 'd' _ _ (by rw [← hd]; exact hsub)
    have hsplit : pySplitOnce p '/' = [p] := by
      unfold pySplitOnce
      simpa using splitOnceAux_no_sep '/' p [] hp
    refine ⟨"Invalid URI format: " ++ String.mk (discordScheme ++ p) ++ ", parts: " ++
      toString [String.mk p], ?_⟩
    simp [handle_read_resource, hgate, readResourceBody, parse_discord_uri,
      isPrefixOf_append_true, hpath, hsplit]

/-- Witness for C8: the pair (12, 34) round-trips exactly; `http://x` and
`discord:///12` produce textual error results. -/
theorem c8_uri_roundtrip_witness :
    parse_discord_uri (discord_channel_uri "12".data "34".data) =
      .ok ("12".data, "34".data) ∧
    (∃ m, handle_read_resource sampleWorld ⟨true, true⟩ .neverReady "http://x".data =
      (.ok [mkTextPlain ("Error reading resource: " ++ m)], ⟨true, true⟩)) ∧
    (∃ m, handle_read_resource sampleWorld ⟨true, true⟩ .neverReady
        (discordScheme ++ "12".data) =
      (.ok [mkTextPlain ("Error reading resource: " ++ m)], ⟨true, true⟩)) :=
  ⟨c8_uri_roundtrip.1 "12".data "34".data (by decide) (by decide),
   c8_uri_roundtrip.2.1 sampleWorld ⟨true, true⟩ .neverReady "http://x".data rfl (by decide),
   c8_uri_roundtrip.2.2 sampleWorld ⟨true, true⟩ .neverReady "12".data rfl (by decide)
     (by decide)⟩

/-! ## Claim C9 -/

/-- C9: the members-listing page size is clamped into [1, 1000] before use
(0 clamps to 1, 100000 clamps to 1000, an absent limit yields the default
50), and the ban message-deletion day count is clamped into [0, 7] with
default 0. -/
theorem c9_clamping :
    (∀ (arguments : Option Args) (n : Int), list_members_limit arguments = .ok n →
      1 ≤ n ∧ n ≤ 1000) ∧
    (∀ arguments : Option Args, getArg arguments "limit" = none →
      list_members_limit arguments = .ok 50) ∧
    list_members_limit (some [("limit", .int 0)]) = .ok 1 ∧
    list_members_limit (some [("limit", .int 100000)]) = .ok 1000 ∧
    (∀ (arguments : Option Args) (n : Int), ban_delete_message_days arguments = .ok n →
      0 ≤ n ∧ n ≤ 7) ∧
    (∀ arguments : Option Args, getArg arguments "delete_message_days" = none →
      ban_delete_message_days arguments = .ok 0) := by
  refine ⟨?_, ?_, ?_, ?_, ?_, ?_⟩
  · intro arguments n h
    unfold list_members_limit at h
    cases hv : pyIntD (getArg arguments "limit") 50 with
    | error e =>
        rw [hv] at h
        simp [Bind.bind, Except.bind] at h
    | ok v =>
        rw [hv] at h
        simp [Bind.bind, Except.bind, pure, Except.pure] at h
        omega
  · intro arguments h
    simp [list_members_limit, h, pyIntD, Bind.bind, Except.bind, pure, Except.pure]
  · rfl
  · rfl
  · intro arguments n h
    unfold ban_delete_message_days at h
    cases hv : pyIntD (getArg arguments "delete_message_days") 0 with
    | error e =>
        rw [hv] at h
        simp [Bind.bind, Except.bind] at h
    | ok v =>
        rw [hv] at h
        simp [Bind.bind, Except.bind, pure, Except.pure] at h
        omega
  · intro arguments h
    simp [ban_delete_message_days, h, pyIntD, Bind.bind, Except.bind, pure, Except.pure]

/-- Witness for C9 at concrete argument dicts. -/
theorem c9_clamping_witness :
    (1 ≤ (1000 : Int) ∧ (1000 : Int) ≤ 1000) ∧
    list_members_limit (some []) = .ok 50 ∧
    list_members_limit (some [("limit", .int 0)]) = .ok 1 ∧
    list_members_limit (some [("limit", .int 100000)]) = .ok 1000 ∧
    (0 ≤ (7 : Int) ∧ (7 : Int) ≤ 7) ∧
    ban_delete_message_days (some []) = .ok 0 :=
  ⟨c9_clamping.1 (some [("limit", .int 100000)]) 1000 rfl,
   c9_clamping.2.1 (some []) rfl,
   c9_clamping.2.2.1,
   c9_clamping.2.2.2.1,
   c9_clamping.2.2.2.2.1 (some [("delete_message_days", .int 9)]) 7 rfl,
   c9_clamping.2.2.2.2.2 (some []) rfl⟩
